import Mathlib

/-!
Shallow embedding of `src/examples/common/window.rs` (the `OpenWindow`
compositor of the tachyonfx examples) and proofs about its tick algorithm,
done predicate, builder validation and geometry handling.

Conventions of the embedding:
* `Duration` is a `Nat` (an abstract count of time units; the Rust code
  treats `std::time::Duration` as an opaque quantum passed through).
* `Rect` mirrors `ratatui::layout::Rect` with `u16` fields represented as
  `Nat`; the saturating `u16` arithmetic of `Rect::right`/`bottom` is kept
  explicit (`min (a + b) 65535`).
* A `Buffer` is the render surface: its `area` plus an ordered trace of
  draw operations (`Patch`).  Rendering the window chrome appends a
  `Patch.clear` and a `Patch.block` to the trace, mirroring
  `Clear.render(area, buf)` and `self.window_block().render(area, buf)`.
* `Effect` packages an arbitrary effect state type together with an
  implementation of the external `tachyonfx::Effect`/`Shader` capability
  set consumed by the window code (`process`, `done`, `running`, `area`,
  `set_area`).  The window code is polymorphic in the behavior, exactly as
  the Rust code is over the boxed shader inside `Effect`.
-/

/-- Time quantum, mirroring `std::time::Duration` as an abstract count. -/
abbrev Duration := Nat

/-- `u16::MAX`, the bound of ratatui coordinate arithmetic. -/
def U16_MAX : Nat := 65535

/-- Saturating `u16` addition (`u16::saturating_add`). -/
def satAdd16 (a b : Nat) : Nat := min (a + b) U16_MAX

/-- Mirror of `ratatui::layout::Rect` (`x`, `y`, `width`, `height` are `u16`). -/
structure Rect where
  x : Nat
  y : Nat
  width : Nat
  height : Nat
deriving DecidableEq, Repr

/-- `Rect::right`: `x.saturating_add(width)`. -/
def Rect.right (r : Rect) : Nat := satAdd16 r.x r.width

/-- `Rect::bottom`: `y.saturating_add(height)`. -/
def Rect.bottom (r : Rect) : Nat := satAdd16 r.y r.height

/-- `u16::clamp(v, lo, hi)` as used in `Rect::clamp`; for `lo ≤ hi` this is
exactly Rust `Ord::clamp`. -/
def clampNat (v lo hi : Nat) : Nat := max lo (min v hi)

/-- Mirror of `ratatui::layout::Rect::clamp(self, other)`:
`width = self.width.min(other.width)`, `height` likewise, then the position
is clamped into `other` so the result fits inside it (with `u16`
saturating subtraction, which on `Nat` is ordinary truncated subtraction). -/
def Rect.clamp (r other : Rect) : Rect :=
  let width := min r.width other.width
  let height := min r.height other.height
  let x := clampNat r.x other.x (other.right - width)
  let y := clampNat r.y other.y (other.bottom - height)
  ⟨x, y, width, height⟩

/-- Geometric containment of one rectangle in another, over true
(unsaturated) coordinates. -/
def Rect.containedIn (r o : Rect) : Prop :=
  o.x ≤ r.x ∧ o.y ≤ r.y ∧
  r.x + r.width ≤ o.x + o.width ∧ r.y + r.height ≤ o.y + o.height

instance (r o : Rect) : Decidable (r.containedIn o) := by
  unfold Rect.containedIn; infer_instance

/-- Opaque stand-in for `ratatui::style::Style` (treated as an opaque
configuration value by the spec). -/
structure Style where
  tag : Nat
deriving DecidableEq, Repr

/-- Mirror of `ratatui::widgets::BorderType`. -/
inductive BorderType where
  | plain
  | rounded
  | double
  | thick
  | quadrantInside
  | quadrantOutside
deriving DecidableEq, Repr

/-- A styled text fragment, mirror of `ratatui::prelude::Span`. -/
structure Span where
  content : String
  style : Style
deriving DecidableEq, Repr

/-- Mirror of `ratatui::text::Line`: a sequence of styled spans. -/
abbrev Line := List Span

/-- Which borders a block draws; `Borders::ALL` sets all four. -/
structure Borders where
  top : Bool
  right : Bool
  bottom : Bool
  left : Bool
deriving DecidableEq, Repr

/-- `ratatui::widgets::Borders::ALL`. -/
def Borders.ALL : Borders := ⟨true, true, true, true⟩

/-- The chrome value built by `OpenWindow::window_block`: a
`ratatui::widgets::Block` with the fields the source sets. -/
structure Block where
  borders : Borders
  title_style : Style
  title : Line
  border_style : Style
  border_type : BorderType
  style : Style
deriving DecidableEq, Repr

/-- One draw operation on the surface.  `clear`/`block` are appended by the
window chrome pass; `write` stands for an arbitrary cell mutation an
effect may perform. -/
inductive Patch where
  | clear (area : Rect)
  | block (b : Block) (area : Rect)
  | write (tag : Nat)
deriving DecidableEq, Repr

/-- The render surface: mirror of `ratatui::buffer::Buffer`, with the cell
grid abstracted into the ordered trace of draw operations applied to it. -/
structure Buffer where
  area : Rect
  content : List Patch
deriving DecidableEq, Repr

/-- The capability set of the external `tachyonfx::Effect` handle, exactly
as consumed by `window.rs`: `process` advances the effect over a region of
the buffer and returns the leftover duration (`Some(remainder)`) or `None`;
`done`, `running` and `area` are queries; `set_area` reassigns the region. -/
structure EffectBehavior (σ : Type u) where
  process : σ → Duration → Buffer → Rect → Option Duration × σ × Buffer
  done : σ → Bool
  running : σ → Bool
  area : σ → Option Rect
  set_area : σ → Rect → σ

/-- An owned effect handle: some state type together with an
implementation of the capability set, mirroring the boxed dynamic shader
inside `tachyonfx::Effect`. -/
structure Effect : Type (u + 1) where
  State : Type u
  impl : EffectBehavior State
  state : State

/-- `Effect::process(duration, buf, area)`. -/
def Effect.process (e : Effect) (duration : Duration) (buf : Buffer) (area : Rect) :
    Option Duration × Effect × Buffer :=
  let r := e.impl.process e.state duration buf area
  (r.1, ⟨e.State, e.impl, r.2.1⟩, r.2.2)

/-- `Effect::done()`. -/
def Effect.done (e : Effect) : Bool := e.impl.done e.state

/-- `Effect::running()`. -/
def Effect.running (e : Effect) : Bool := e.impl.running e.state

/-- `Effect::area()`. -/
def Effect.area (e : Effect) : Option Rect := e.impl.area e.state

/-- `Effect::set_area(area)`. -/
def Effect.set_area (e : Effect) (area : Rect) : Effect :=
  ⟨e.State, e.impl, e.impl.set_area e.state area⟩

/-- Opaque stand-in for `tachyonfx::FilterMode` (the cell selection
strategy); its structure is irrelevant to `window.rs`, which never
inspects it. -/
structure FilterMode where
  tag : Nat
deriving DecidableEq, Repr

/-- Mirror of the `OpenWindow` struct of `window.rs`. -/
structure OpenWindow where
  title : Line
  pre_render_fx : Option Effect.{0}
  parent_window_fx : Option Effect.{0}
  content_fx : Option Effect.{0}
  title_style : Style
  border_style : Style
  border_type : BorderType
  background : Style

/-- `OpenWindow::window_block`: the chrome block built from the immutable
styling fields (note the source styles the title with `border_style`). -/
def OpenWindow.window_block (w : OpenWindow) : Block :=
  { borders := Borders.ALL
  , title_style := w.border_style
  , title := w.title
  , border_style := w.border_style
  , border_type := w.border_type
  , style := w.background }

/-- The parent-effect pass of `Shader::process` for `OpenWindow`
(`window.rs` lines 99 to 104): if a parent effect is present it is
processed unconditionally over the caller region, and the slot is emptied
when the processed effect reports done. -/
def parentPass (parent : Option Effect) (duration : Duration) (buf : Buffer) (area : Rect) :
    Option Effect × Buffer :=
  match parent with
  | some parent_window_fx =>
      let r := parent_window_fx.process duration buf area
      (if (r.2.1).done then none else some r.2.1, r.2.2)
  | none => (none, buf)

/-- The pre-render pass of `Shader::process` (`window.rs` lines 106 to
109): the effect is processed only when present and running, yielding the
tick overflow; otherwise the overflow is the full duration and the slot
and buffer are untouched. -/
def preRenderPass (pre : Option Effect) (duration : Duration) (buf : Buffer) (area : Rect) :
    Option Duration × Option Effect × Buffer :=
  match pre with
  | some fx =>
      if fx.running then
        let r := fx.process duration buf area
        (r.1, some r.2.1, r.2.2)
      else (some duration, some fx, buf)
  | none => (some duration, none, buf)

/-- The effective-region computation of `Shader::process` (`window.rs`
lines 111 to 115): the pre-render slot region, clamped to the buffer
area, defaulting to the caller region. -/
def effectiveArea (pre : Option Effect) (bufArea fallback : Rect) : Rect :=
  (((pre.map Effect.area).join).map (fun a => a.clamp bufArea)).getD fallback

/-- `Shader::process` for `OpenWindow` (`window.rs` lines 92 to 125):
parent pass, pre-render pass, effective-region computation, content region
propagation, then chrome render (`Clear` then the window block); returns
the pre-render overflow. -/
def OpenWindow.process (w : OpenWindow) (duration : Duration) (buf : Buffer) (area : Rect) :
    Option Duration × OpenWindow × Buffer :=
  let p := parentPass w.parent_window_fx duration buf area
  let q := preRenderPass w.pre_render_fx duration p.2 area
  let area2 := effectiveArea q.2.1 q.2.2.area area
  let content_fx := w.content_fx.map (fun fx => fx.set_area area2)
  (q.1,
   { w with parent_window_fx := p.1, pre_render_fx := q.2.1, content_fx := content_fx },
   { q.2.2 with
       content := q.2.2.content ++ [Patch.clear area2, Patch.block w.window_block area2] })

/-- `Shader::done` for `OpenWindow` (`window.rs` lines 128 to 131). -/
def OpenWindow.done (w : OpenWindow) : Bool :=
  w.pre_render_fx.isNone || w.pre_render_fx.any Effect.done

/-- `Shader::area` for `OpenWindow`. -/
def OpenWindow.area (w : OpenWindow) : Option Rect :=
  (w.pre_render_fx.map Effect.area).getD none

/-- `Shader::set_area` for `OpenWindow`: forwards to the pre-render slot. -/
def OpenWindow.set_area (w : OpenWindow) (area : Rect) : OpenWindow :=
  match w.pre_render_fx with
  | some open_window_fx => { w with pre_render_fx := some (open_window_fx.set_area area) }
  | none => w

/-- `OpenWindow::screen_area` (`window.rs` lines 67 to 71): forwards the
region to the parent slot when present. -/
def OpenWindow.screen_area (w : OpenWindow) (area : Rect) : OpenWindow :=
  match w.parent_window_fx with
  | some fx => { w with parent_window_fx := some (fx.set_area area) }
  | none => w

/-- `OpenWindow::processing_content_fx` (`window.rs` lines 83 to 89): the
content effect is processed only when present and running; its leftover
result is discarded. -/
def OpenWindow.processing_content_fx (w : OpenWindow) (duration : Duration) (buf : Buffer)
    (area : Rect) : OpenWindow × Buffer :=
  match w.content_fx with
  | some fx =>
      if fx.running then
        let r := fx.process duration buf area
        ({ w with content_fx := some r.2.1 }, r.2.2)
      else (w, buf)
  | none => (w, buf)

/-- `Shader::cell_selection` for `OpenWindow` (`window.rs` lines 149 to
151): the body is `todo!()`, which panics unconditionally with the message
"not yet implemented"; the panic is modelled as `Except.error`. -/
def OpenWindow.cell_selection (_w : OpenWindow) (_strategy : FilterMode) :
    Except String OpenWindow :=
  .error "not yet implemented"

/-- Mirror of the derive_builder-generated `OpenWindowBuilder` (owned
pattern): every field is an `Option`; the three effect slots use
`setter(strip_option)` so their builder fields hold `Option (Option
Effect)` and `#[builder(default)]` makes them fall back to `none`. -/
structure OpenWindowBuilder where
  title : Option Line := none
  pre_render_fx : Option (Option Effect.{0}) := none
  parent_window_fx : Option (Option Effect.{0}) := none
  content_fx : Option (Option Effect.{0}) := none
  title_style : Option Style := none
  border_style : Option Style := none
  border_type : Option BorderType := none
  background : Option Style := none

/-- `OpenWindow::builder()`: the all-defaults builder. -/
def OpenWindow.builder : OpenWindowBuilder := {}

/-- `OpenWindowBuilder::build`: every field without `#[builder(default)]`
(`title`, `title_style`, `border_style`, `border_type`, `background`) must
have been set, otherwise the build fails with an uninitialized-field
error naming the field; the effect slots fall back to `none`. -/
def OpenWindowBuilder.build (b : OpenWindowBuilder) : Except String OpenWindow :=
  match b.title, b.title_style, b.border_style, b.border_type, b.background with
  | none, _, _, _, _ => .error "title"
  | some _, none, _, _, _ => .error "title_style"
  | some _, some _, none, _, _ => .error "border_style"
  | some _, some _, some _, none, _ => .error "border_type"
  | some _, some _, some _, some _, none => .error "background"
  | some t, some ts, some bs, some bt, some bg =>
      .ok { title := t
          , pre_render_fx := b.pre_render_fx.getD none
          , parent_window_fx := b.parent_window_fx.getD none
          , content_fx := b.content_fx.getD none
          , title_style := ts
          , border_style := bs
          , border_type := bt
          , background := bg }

/-- Modelled from the spec: the external `tachyonfx` `Shader` trait
supplies a default `running` implementation in terms of `done` for shaders
(like `OpenWindow`) that do not override it; `window.rs` overrides only
`process`, `done`, `clone_box`, `area`, `set_area` and `cell_selection`. -/
def OpenWindow.shaderImpl : EffectBehavior OpenWindow :=
  { process := OpenWindow.process
  , done := OpenWindow.done
  , running := fun w => !w.done
  , area := OpenWindow.area
  , set_area := OpenWindow.set_area }

/-- `IntoEffect::into_effect` on `OpenWindow`: package the window as an
effect handle. -/
def OpenWindow.into_effect (w : OpenWindow) : Effect :=
  ⟨OpenWindow, OpenWindow.shaderImpl, w⟩

/-- `From<OpenWindowBuilder> for Effect`: `value.build().unwrap().into_effect()`.
The `unwrap` panic on a failed build is modelled as `none`. -/
def Effect.ofOpenWindowBuilder (b : OpenWindowBuilder) : Option Effect :=
  b.build.toOption.map OpenWindow.into_effect

/-! ## Concrete effects and fixtures used to evaluate the development -/

/-- A concrete effect state: fixed `running`/`done` flags, a reported
region, and the leftover duration its `process` returns. -/
structure SimpleFx where
  running : Bool
  done : Bool
  area : Option Rect
  leftover : Option Duration
deriving DecidableEq, Repr

/-- Behavior of `SimpleFx`: `process` returns the fixed leftover and
appends one `Patch.write` to the buffer; `set_area` stores the region. -/
def simpleBehavior : EffectBehavior SimpleFx :=
  { process := fun s _ buf _ =>
      (s.leftover, s, { buf with content := buf.content ++ [Patch.write 0] })
  , done := SimpleFx.done
  , running := SimpleFx.running
  , area := SimpleFx.area
  , set_area := fun s a => { s with area := some a } }

/-- Package a `SimpleFx` as an effect handle. -/
def mkFx (running done : Bool) (area : Option Rect) (leftover : Option Duration) : Effect :=
  ⟨SimpleFx, simpleBehavior, ⟨running, done, area, leftover⟩⟩

/-- An arbitrary opaque style value. -/
def sampleStyle : Style := ⟨0⟩

/-- A 10 by 3 surface region at the origin. -/
def sampleRect : Rect := ⟨0, 0, 10, 3⟩

/-- An empty surface with area `sampleRect`. -/
def sampleBuf : Buffer := ⟨sampleRect, []⟩

/-- A window with all three effect slots empty. -/
def baseWindow : OpenWindow :=
  { title := []
  , pre_render_fx := none
  , parent_window_fx := none
  , content_fx := none
  , title_style := sampleStyle
  , border_style := sampleStyle
  , border_type := BorderType.rounded
  , background := sampleStyle }

/-! ## Components of one tick, named for the statements below -/

/-- The pre-render slot as it stands after the pre-render pass of a tick. -/
def tickPre (w : OpenWindow) (d : Duration) (buf : Buffer) (area : Rect) : Option Effect :=
  (preRenderPass w.pre_render_fx d (parentPass w.parent_window_fx d buf area).2 area).2.1

/-- The buffer as it stands after the parent and pre-render passes of a
tick, before the chrome render. -/
def tickBuf (w : OpenWindow) (d : Duration) (buf : Buffer) (area : Rect) : Buffer :=
  (preRenderPass w.pre_render_fx d (parentPass w.parent_window_fx d buf area).2 area).2.2

/-- The region reported by the pre-render slot during a tick
(`self.pre_render_fx.as_ref().map(Effect::area).flatten()`). -/
def tickReported (w : OpenWindow) (d : Duration) (buf : Buffer) (area : Rect) : Option Rect :=
  ((tickPre w d buf area).map Effect.area).join

/-- The effective region a tick uses for chrome and content. -/
def tickArea (w : OpenWindow) (d : Duration) (buf : Buffer) (area : Rect) : Rect :=
  effectiveArea (tickPre w d buf area) (tickBuf w d buf area).area area

/-! ## Helper lemmas -/

/-- `Rect::clamp` always lands inside the clamping rectangle. -/
theorem Rect.clamp_containedIn (r o : Rect) : (r.clamp o).containedIn o := by
  unfold Rect.clamp Rect.containedIn clampNat Rect.right Rect.bottom satAdd16 U16_MAX
  dsimp only
  omega

/-- A successful build copies the three (defaulted) effect slots from the
builder into the window. -/
theorem build_ok_slots (b : OpenWindowBuilder) (w : OpenWindow) (h : b.build = .ok w) :
    w.pre_render_fx = b.pre_render_fx.getD none
      ∧ w.parent_window_fx = b.parent_window_fx.getD none
      ∧ w.content_fx = b.content_fx.getD none := by
  unfold OpenWindowBuilder.build at h
  cases hT : b.title <;> cases hTS : b.title_style <;> cases hBS : b.border_style <;>
    cases hBT : b.border_type <;> cases hBG : b.background <;>
    rw [hT, hTS, hBS, hBT, hBG] at h <;> cases h
  simp

/-! ## Claim theorems -/

/-- C1: if no pre-render effect is set, or one is set but not running, a
tick returns the full duration unchanged; if a pre-render effect is set
and running, the tick returns exactly the leftover of that effect's
process call (made on the buffer produced by the parent pass). -/
theorem tick_overflow (w : OpenWindow) (d : Duration) (buf : Buffer) (area : Rect) :
    ((w.pre_render_fx = none ∨ ∃ fx, w.pre_render_fx = some fx ∧ fx.running = false) →
      (w.process d buf area).1 = some d) ∧
    (∀ fx, w.pre_render_fx = some fx → fx.running = true →
      (w.process d buf area).1
        = (fx.process d (parentPass w.parent_window_fx d buf area).2 area).1) := by
  constructor
  · rintro (h | ⟨fx, hfx, hrun⟩)
    · simp [OpenWindow.process, preRenderPass, h]
    · simp [OpenWindow.process, preRenderPass, hfx, hrun]
  · intro fx hfx hrun
    simp [OpenWindow.process, preRenderPass, hfx, hrun]

/-- C1 witness: for a window whose running pre-render effect returns a
leftover of 2, a 12-unit tick returns exactly that leftover. -/
theorem tick_overflow_witness :
    ({ baseWindow with pre_render_fx := some (mkFx true false none (some 2)) }.process
        12 sampleBuf sampleRect).1 = some 2 :=
  ((tick_overflow { baseWindow with pre_render_fx := some (mkFx true false none (some 2)) }
      12 sampleBuf sampleRect).2 (mkFx true false none (some 2)) rfl rfl).trans rfl

/-- C2: the done predicate holds iff the pre-render slot is empty or its
effect reports done; a window built with no pre-render effect is done
before any tick, and a window built with a pre-render effect has exactly
that effect's done flag as its done state. -/
theorem done_predicate (w : OpenWindow) (b : OpenWindowBuilder) :
    (w.done = true ↔ w.pre_render_fx = none ∨ ∃ fx, w.pre_render_fx = some fx ∧ fx.done = true) ∧
    (b.build = .ok w → b.pre_render_fx = none → w.done = true) ∧
    (∀ fx, b.build = .ok w → b.pre_render_fx = some (some fx) → w.done = fx.done) := by
  refine ⟨?_, ?_, ?_⟩
  · cases hw : w.pre_render_fx <;> simp [OpenWindow.done, hw]
  · intro hb hpre
    have hs := (build_ok_slots b w hb).1
    rw [hpre] at hs
    simp [OpenWindow.done, hs]
  · intro fx hb hpre
    have hs := (build_ok_slots b w hb).1
    rw [hpre] at hs
    cases hd : fx.done <;> simp [OpenWindow.done, hs, hd]

/-- C2 witness: a window built with no pre-render effect is done before
any tick, and one built with a not-done pre-render effect is not done. -/
theorem done_predicate_witness :
    ({ OpenWindow.builder with
        title := some [], title_style := some sampleStyle, border_style := some sampleStyle,
        border_type := some BorderType.rounded, background := some sampleStyle
      } : OpenWindowBuilder).build = .ok baseWindow ∧ baseWindow.done = true :=
  ⟨rfl,
   (done_predicate baseWindow
      { OpenWindow.builder with
        title := some [], title_style := some sampleStyle, border_style := some sampleStyle,
        border_type := some BorderType.rounded, background := some sampleStyle }).2.1
     rfl rfl⟩

/-- C3: a tick renders its chrome (a clear followed by the window block)
onto the effective region and reassigns the content effect to it; when the
pre-render slot reports a region the effective region is contained in the
surface bounds, and when nothing is reported it is the caller region. -/
theorem effective_region (w : OpenWindow) (d : Duration) (buf : Buffer) (area : Rect) :
    ((w.process d buf area).2.2.content
       = (tickBuf w d buf area).content
         ++ [Patch.clear (tickArea w d buf area),
             Patch.block w.window_block (tickArea w d buf area)]) ∧
    ((w.process d buf area).2.1.content_fx
       = w.content_fx.map (fun fx => fx.set_area (tickArea w d buf area))) ∧
    (∀ a, tickReported w d buf area = some a →
       (tickArea w d buf area).containedIn (tickBuf w d buf area).area) ∧
    (tickReported w d buf area = none → tickArea w d buf area = area) := by
  refine ⟨rfl, rfl, ?_, ?_⟩
  · intro a ha
    have : tickArea w d buf area = a.clamp (tickBuf w d buf area).area := by
      unfold tickArea effectiveArea
      rw [show ((tickPre w d buf area).map Effect.area).join = some a from ha]
      rfl
    rw [this]
    exact Rect.clamp_containedIn a (tickBuf w d buf area).area
  · intro ha
    unfold tickArea effectiveArea
    rw [show ((tickPre w d buf area).map Effect.area).join = none from ha]
    rfl

/-- C3 witness: a pre-render effect reporting a 100 by 100 region at
(5, 1) on a 10 by 3 surface yields an effective region inside the surface
bounds. -/
theorem effective_region_witness :
    tickReported { baseWindow with pre_render_fx := some (mkFx false false (some ⟨5, 1, 100, 100⟩) none) }
        7 sampleBuf sampleRect = some ⟨5, 1, 100, 100⟩ ∧
    (tickArea { baseWindow with pre_render_fx := some (mkFx false false (some ⟨5, 1, 100, 100⟩) none) }
        7 sampleBuf sampleRect).containedIn
      (tickBuf { baseWindow with pre_render_fx := some (mkFx false false (some ⟨5, 1, 100, 100⟩) none) }
        7 sampleBuf sampleRect).area :=
  ⟨rfl,
   (effective_region
      { baseWindow with pre_render_fx := some (mkFx false false (some ⟨5, 1, 100, 100⟩) none) }
      7 sampleBuf sampleRect).2.2.1 ⟨5, 1, 100, 100⟩ rfl⟩

/-- C4: a present parent effect is processed in every tick with no
condition on its running flag, and its slot is emptied exactly when the
processed effect reports done; an empty parent slot does no work and stays
empty, so a finished parent effect is never re-invoked. -/
theorem parent_eviction (w : OpenWindow) (d : Duration) (buf : Buffer) (area : Rect) :
    (∀ fx, w.parent_window_fx = some fx →
       (w.process d buf area).2.1.parent_window_fx
         = (if (fx.process d buf area).2.1.done = true then none
            else some (fx.process d buf area).2.1)
       ∧ parentPass w.parent_window_fx d buf area
         = (if (fx.process d buf area).2.1.done = true then none
            else some (fx.process d buf area).2.1,
            (fx.process d buf area).2.2)) ∧
    (w.parent_window_fx = none →
       parentPass w.parent_window_fx d buf area = (none, buf)
       ∧ (w.process d buf area).2.1.parent_window_fx = none) := by
  constructor
  · intro fx hfx
    constructor
    · simp [OpenWindow.process, parentPass, hfx]
    · simp [parentPass, hfx]
  · intro h
    constructor
    · simp [parentPass, h]
    · simp [OpenWindow.process, parentPass, h]

/-- C4 witness: a not-running, not-done parent effect is still processed
(its write lands in the buffer and its slot survives), and after the tick
that empties the slot a further tick keeps it empty. -/
theorem parent_eviction_witness :
    ({ baseWindow with parent_window_fx := some (mkFx false false none none) }.process
        5 sampleBuf sampleRect).2.1.parent_window_fx
      = some ((mkFx false false none none).process 5 sampleBuf sampleRect).2.1 ∧
    parentPass (baseWindow.process 5 sampleBuf sampleRect).2.1.parent_window_fx
        5 sampleBuf sampleRect = (none, sampleBuf) :=
  ⟨((parent_eviction { baseWindow with parent_window_fx := some (mkFx false false none none) }
      5 sampleBuf sampleRect).1 (mkFx false false none none) rfl).1.trans rfl,
   ((parent_eviction { baseWindow with
        parent_window_fx := (baseWindow.process 5 sampleBuf sampleRect).2.1.parent_window_fx }
      5 sampleBuf sampleRect).2 rfl).1⟩

/-- C5: a tick never advances the content effect (it only reassigns its
region to the effective region); the content-tick operation is a no-op
when the content slot is empty or not running, never changes the done
state, and appends nothing to the buffer beyond the content effect's own
output. -/
theorem content_decoupling (w : OpenWindow) (d : Duration) (buf : Buffer) (area : Rect) :
    ((w.process d buf area).2.1.content_fx
       = w.content_fx.map (fun fx => fx.set_area (tickArea w d buf area))) ∧
    (w.content_fx = none → w.processing_content_fx d buf area = (w, buf)) ∧
    (∀ fx, w.content_fx = some fx → fx.running = false →
       w.processing_content_fx d buf area = (w, buf)) ∧
    ((w.processing_content_fx d buf area).1.done = w.done) ∧
    ((w.processing_content_fx d buf area).2
       = match w.content_fx with
         | some fx => if fx.running = true then (fx.process d buf area).2.2 else buf
         | none => buf) := by
  refine ⟨rfl, ?_, ?_, ?_, ?_⟩
  · intro h
    simp [OpenWindow.processing_content_fx, h]
  · intro fx hfx hrun
    simp [OpenWindow.processing_content_fx, hfx, hrun]
  · cases hc : w.content_fx with
    | none => simp [OpenWindow.processing_content_fx, hc]
    | some fx =>
        cases hr : fx.running <;>
          simp [OpenWindow.processing_content_fx, OpenWindow.done, hc, hr]
  · cases hc : w.content_fx with
    | none => simp [OpenWindow.processing_content_fx, hc]
    | some fx =>
        cases hr : fx.running <;>
          simp [OpenWindow.processing_content_fx, hc, hr]

/-- C5 witness: with a not-running content effect holding a write-emitting
behavior, the content tick leaves both window and buffer untouched, and
the done state is unchanged. -/
theorem content_decoupling_witness :
    ({ baseWindow with content_fx := some (mkFx false false none none) }.processing_content_fx
        9 sampleBuf sampleRect)
      = ({ baseWindow with content_fx := some (mkFx false false none none) }, sampleBuf) ∧
    ({ baseWindow with content_fx := some (mkFx false false none none) }.processing_content_fx
        9 sampleBuf sampleRect).1.done
      = { baseWindow with content_fx := some (mkFx false false none none) }.done :=
  ⟨(content_decoupling { baseWindow with content_fx := some (mkFx false false none none) }
      9 sampleBuf sampleRect).2.2.1 (mkFx false false none none) rfl rfl,
   (content_decoupling { baseWindow with content_fx := some (mkFx false false none none) }
      9 sampleBuf sampleRect).2.2.2.1⟩

/-- C6 counterexample: ticking a window whose pre-render effect reports
done leaves the finished effect in its slot — the slot is not emptied, so
the claim that a done pre-render effect implies an empty slot is false on
a reachable state. -/
theorem pre_render_not_removed :
    (({ baseWindow with pre_render_fx := some (mkFx false true none none) }.process
        5 sampleBuf sampleRect).2.1.pre_render_fx.any Effect.done = true) ∧
    (({ baseWindow with pre_render_fx := some (mkFx false true none none) }.process
        5 sampleBuf sampleRect).2.1.pre_render_fx.isSome = true) :=
  ⟨rfl, rfl⟩

/-- C6 amended: ticking never removes the pre-render effect from its slot;
the slot is occupied after a tick exactly when it was occupied before, so
a finished pre-render effect is retained rather than removed. -/
theorem pre_render_retained (w : OpenWindow) (d : Duration) (buf : Buffer) (area : Rect) :
    (w.process d buf area).2.1.pre_render_fx.isSome = w.pre_render_fx.isSome := by
  cases h : w.pre_render_fx with
  | none => simp [OpenWindow.process, preRenderPass, h]
  | some fx =>
      cases hr : fx.running <;> simp [OpenWindow.process, preRenderPass, h, hr]

/-- C7 counterexample: a builder with title, border style, title style and
background all present but no border type still fails to build, so the
four listed fields are not the full required set. -/
theorem build_missing_border_type :
    (({ title := some [], title_style := some ⟨1⟩, border_style := some ⟨2⟩,
        background := some ⟨3⟩ } : OpenWindowBuilder).title.isSome = true) ∧
    (({ title := some [], title_style := some ⟨1⟩, border_style := some ⟨2⟩,
        background := some ⟨3⟩ } : OpenWindowBuilder).border_style.isSome = true) ∧
    (({ title := some [], title_style := some ⟨1⟩, border_style := some ⟨2⟩,
        background := some ⟨3⟩ } : OpenWindowBuilder).title_style.isSome = true) ∧
    (({ title := some [], title_style := some ⟨1⟩, border_style := some ⟨2⟩,
        background := some ⟨3⟩ } : OpenWindowBuilder).background.isSome = true) ∧
    ({ title := some [], title_style := some ⟨1⟩, border_style := some ⟨2⟩,
        background := some ⟨3⟩ } : OpenWindowBuilder).build = .error "border_type" :=
  ⟨rfl, rfl, rfl, rfl, rfl⟩

/-- C7 amended: building fails exactly when one of the five required
fields — title, title style, border style, border type, background — is
missing, and succeeds otherwise; the three effect slots are optional and
default to absent (both in the fresh builder and in the built window). -/
theorem build_validation (b : OpenWindowBuilder) :
    (b.build.isOk = true ↔
       b.title.isSome = true ∧ b.title_style.isSome = true ∧ b.border_style.isSome = true
       ∧ b.border_type.isSome = true ∧ b.background.isSome = true) ∧
    (∀ w, b.build = .ok w →
       w.pre_render_fx = b.pre_render_fx.getD none
       ∧ w.parent_window_fx = b.parent_window_fx.getD none
       ∧ w.content_fx = b.content_fx.getD none) ∧
    (OpenWindow.builder.pre_render_fx = none ∧ OpenWindow.builder.parent_window_fx = none
       ∧ OpenWindow.builder.content_fx = none) := by
  refine ⟨?_, fun w h => build_ok_slots b w h, rfl, rfl, rfl⟩
  cases hT : b.title <;> cases hTS : b.title_style <;> cases hBS : b.border_style <;>
    cases hBT : b.border_type <;> cases hBG : b.background <;>
    simp [OpenWindowBuilder.build, Except.isOk, Except.toBool, hT, hTS, hBS, hBT, hBG]

/-- C7 witness: a builder with all five required fields set builds
successfully, and the unset effect slots of the result are absent. -/
theorem build_validation_witness :
    (({ title := some [], title_style := some sampleStyle, border_style := some sampleStyle,
        border_type := some BorderType.rounded, background := some sampleStyle
      } : OpenWindowBuilder).build.isOk = true) ∧
    baseWindow.pre_render_fx = none :=
  ⟨(build_validation
      { title := some [], title_style := some sampleStyle, border_style := some sampleStyle,
        border_type := some BorderType.rounded, background := some sampleStyle }).1.mpr
      ⟨rfl, rfl, rfl, rfl, rfl⟩,
   ((build_validation
      { title := some [], title_style := some sampleStyle, border_style := some sampleStyle,
        border_type := some BorderType.rounded, background := some sampleStyle }).2.1
      baseWindow rfl).1⟩

/-- C8: for every window state and filter-mode argument, cell selection
fails with the unconditional not-yet-implemented panic of `todo!()` and
never returns normally. -/
theorem cell_selection_unimplemented (w : OpenWindow) (strategy : FilterMode) :
    w.cell_selection strategy = .error "not yet implemented" := rfl

/-- C9: reassigning the screen area forwards the region to the parent
slot when present and changes nothing else; with an empty parent slot it
changes nothing at all. -/
theorem screen_area_forwarding (w : OpenWindow) (area : Rect) :
    (∀ fx, w.parent_window_fx = some fx →
       w.screen_area area = { w with parent_window_fx := some (fx.set_area area) }) ∧
    (w.parent_window_fx = none → w.screen_area area = w) ∧
    ((w.screen_area area).pre_render_fx = w.pre_render_fx
      ∧ (w.screen_area area).content_fx = w.content_fx
      ∧ (w.screen_area area).title = w.title
      ∧ (w.screen_area area).title_style = w.title_style
      ∧ (w.screen_area area).border_style = w.border_style
      ∧ (w.screen_area area).border_type = w.border_type
      ∧ (w.screen_area area).background = w.background) := by
  refine ⟨?_, ?_, ?_⟩
  · intro fx hfx
    simp [OpenWindow.screen_area, hfx]
  · intro h
    simp [OpenWindow.screen_area, h]
  · cases h : w.parent_window_fx <;>
      simp [OpenWindow.screen_area, h]

/-- C9 witness: on a window with a parent effect, the reassignment stores
the forwarded region in the parent slot and leaves the other slots and
styling untouched; on a window without one it is the identity. -/
theorem screen_area_forwarding_witness :
    ({ baseWindow with parent_window_fx := some (mkFx true false none none) }.screen_area
        sampleRect
      = { baseWindow with
            parent_window_fx := some ((mkFx true false none none).set_area sampleRect) }) ∧
    baseWindow.screen_area sampleRect = baseWindow :=
  ⟨(screen_area_forwarding { baseWindow with parent_window_fx := some (mkFx true false none none) }
      sampleRect).1 (mkFx true false none none) rfl,
   (screen_area_forwarding baseWindow sampleRect).2.1 rfl⟩

/-- C10: converting a builder directly into an effect succeeds exactly
when the build succeeds (yielding the built window packaged as an effect)
and is the modelled panic (`none`) exactly when the build fails. -/
theorem effect_of_builder (b : OpenWindowBuilder) :
    (Effect.ofOpenWindowBuilder b).isSome = b.build.isOk ∧
    (∀ w, b.build = .ok w → Effect.ofOpenWindowBuilder b = some w.into_effect) ∧
    (b.build.isOk = false → Effect.ofOpenWindowBuilder b = none) := by
  refine ⟨?_, ?_, ?_⟩
  · cases h : b.build <;>
      simp [Effect.ofOpenWindowBuilder, h, Except.toOption, Except.isOk, Except.toBool]
  · intro w h
    simp [Effect.ofOpenWindowBuilder, h, Except.toOption]
  · intro h
    cases hb : b.build with
    | ok w => rw [hb] at h; simp [Except.isOk, Except.toBool] at h
    | error e => simp [Effect.ofOpenWindowBuilder, hb, Except.toOption]

/-- C10 witness: converting a complete builder yields the packaged window
effect, and converting an empty builder (missing required fields, which
makes `unwrap` panic) yields the modelled panic. -/
theorem effect_of_builder_witness :
    Effect.ofOpenWindowBuilder
        { title := some [], title_style := some sampleStyle, border_style := some sampleStyle,
          border_type := some BorderType.rounded, background := some sampleStyle }
      = some baseWindow.into_effect ∧
    Effect.ofOpenWindowBuilder OpenWindow.builder = none :=
  ⟨(effect_of_builder
      { title := some [], title_style := some sampleStyle, border_style := some sampleStyle,
        border_type := some BorderType.rounded, background := some sampleStyle }).2.1
      baseWindow rfl,
   (effect_of_builder OpenWindow.builder).2.2 rfl⟩
